import Mathlib

/-!
Shallow embedding of the `botframework` worker service
(`botframework/rest/schemas.py` and `botframework/worker/main.py`).

Conventions of the embedding:
* Python `Optional[T]` fields become `Option T`; pydantic defaults become
  structure-field defaults.
* Python floats in the sampling parameters are modelled as exact rationals
  (`Rat`), since the program only stores and forwards them.
* `time.time()` is passed in explicitly as a `now : Int` parameter.
* The llama-cpp runtime is an opaque collaborator: a structure of two
  functions (blocking completion and streaming completion).  A streaming
  run is its finite list of chunks, each either produced normally
  (`Except.ok`) or the point where the runtime raises (`Except.error`).
* A Python generator that raises stops yielding: frames already yielded
  were sent, nothing after the raise is.
-/

/- ### Request/response schemas, from `rest/schemas.py` -/

/-- `ChatMessage` of `rest/schemas.py`: a single chat message. -/
structure ChatMessage where
  role : String
  content : String
deriving DecidableEq

/-- The `Union[str, List[str]]` type of the `stop` field. -/
inductive StopSpec where
  | str (s : String)
  | list (l : List String)
deriving DecidableEq

/-- `ChatCompletionRequest` of `rest/schemas.py`, fields in source order.
Pydantic defaults are the field defaults. -/
structure ChatCompletionRequest where
  model : String
  messages : List ChatMessage
  temperature : Option Rat := some 0.7
  top_p : Option Rat := some 1.0
  n : Option Int := some 1
  max_tokens : Option Int := none
  stream : Option Bool := some false
  stop : Option StopSpec := none
  presence_penalty : Option Rat := some 0
  frequency_penalty : Option Rat := some 0
  logit_bias : Option (List (String × Rat)) := none
  user : Option String := none
  top_k : Option Int := some 40
  repeat_penalty : Option Rat := some 1.1
deriving DecidableEq

/-- `ChatCompletionResponseChoice` of `rest/schemas.py`. -/
structure ChatCompletionResponseChoice where
  index : Int
  message : ChatMessage
  finish_reason : Option String := none
deriving DecidableEq

/-- `ChatCompletionUsage` of `rest/schemas.py`. -/
structure ChatCompletionUsage where
  prompt_tokens : Int
  completion_tokens : Int
  total_tokens : Int
deriving DecidableEq

/-- `ChatCompletionResponse` of `rest/schemas.py`. -/
structure ChatCompletionResponse where
  id : String
  object : String := "chat.completion"
  created : Int
  model : String
  choices : List ChatCompletionResponseChoice
  usage : ChatCompletionUsage
deriving DecidableEq

/-- `ChatCompletionChunkDelta` of `rest/schemas.py`. -/
structure ChatCompletionChunkDelta where
  role : Option String := none
  content : Option String := none
deriving DecidableEq

/-- `ChatCompletionChunkChoice` of `rest/schemas.py`. -/
structure ChatCompletionChunkChoice where
  index : Int
  delta : ChatCompletionChunkDelta
  finish_reason : Option String := none
deriving DecidableEq

/-- `ChatCompletionChunk` of `rest/schemas.py` — the OpenAI-shaped dict
that llama-cpp-python yields while streaming has exactly this shape. -/
structure ChatCompletionChunk where
  id : String
  object : String := "chat.completion.chunk"
  created : Int
  model : String
  choices : List ChatCompletionChunkChoice
deriving DecidableEq

/-- Modelled from the spec: `HealthResponse` is imported from `rest.schemas`
by `worker/main.py` but its class definition is not among the provided
sources; per the spec (§4.5) the health endpoint returns
`\x7bstatus: "ok"|"mock_mode", model_loaded: bool\x7d`, and the constructor
call in `main.py` names exactly these two fields. -/
structure HealthResponse where
  status : String
  model_loaded : Bool
deriving DecidableEq

/- ### The opaque llama-cpp runtime collaborator -/

/-- The `\x7b"role": ..., "content": ...\x7d` dicts that `chat_completions`
builds from the pydantic messages before calling the runtime. -/
structure LlamaMessage where
  role : String
  content : String
deriving DecidableEq

/-- The sampling parameters that `llm.create_chat_completion` receives in
`create_chat_response` / `stream_chat_response`, keyword for keyword.
`Option` fields are those the worker may pass as Python `None`. -/
structure SamplingParams where
  temperature : Rat
  top_p : Option Rat
  top_k : Int
  max_tokens : Option Int
  stop : Option StopSpec
  repeat_penalty : Rat
deriving DecidableEq

/-- The OpenAI-shaped dict a blocking `llm.create_chat_completion` call
returns; the worker forwards it verbatim, so only its usage block matters
to the properties here. -/
structure RuntimeResponse where
  id : String
  created : Int
  model : String
  content : String
  finish_reason : Option String
  usage : ChatCompletionUsage
deriving DecidableEq

/-- The loaded llama-cpp runtime, as the worker sees it: a blocking call
returning a response dict, and a streaming call returning the finite
run of chunk dicts, where `Except.error` marks the point at which the
runtime raises (an empty-so-far run raising immediately is
`Except.error e :: _`). -/
structure LlamaRuntime where
  complete : List LlamaMessage → SamplingParams → RuntimeResponse
  completeStream : List LlamaMessage → SamplingParams → List (Except String ChatCompletionChunk)

/- ### JSON serialization of chunks (models Python `json.dumps`) -/

/-- Models `json.dumps` escaping for one character: backslash, quote and
the common control characters; other characters pass through.  (An
approximation of the stdlib encoder, sufficient for the strings the
worker handles; the worker never inspects the encoded text.) -/
def jsonEscapeChar (c : Char) : String :=
  if c = '\\' then "\\\\"
  else if c = '\"' then "\\\""
  else if c = '\n' then "\\n"
  else if c = '\r' then "\\r"
  else if c = '\t' then "\\t"
  else String.singleton c

/-- JSON string literal, models `json.dumps` on a `str`. -/
def jsonStrLit (s : String) : String :=
  "\"" ++ String.join (s.data.map jsonEscapeChar) ++ "\""

/-- JSON for an optional string: `null` when absent. -/
def jsonOptStr : Option String → String
  | none => "null"
  | some s => jsonStrLit s

/-- JSON for a chunk delta dict: llama-cpp includes only the keys that are
present (`\x7b"role": ...\x7d` first, then `\x7b"content": ...\x7d`,
finally `\x7b\x7d`). -/
def deltaJson (d : ChatCompletionChunkDelta) : String :=
  "\x7b" ++ String.intercalate ", "
    ((match d.role with | none => [] | some r => ["\"role\": " ++ jsonStrLit r]) ++
     (match d.content with | none => [] | some c => ["\"content\": " ++ jsonStrLit c]))
  ++ "\x7d"

/-- JSON for one streamed choice dict, `json.dumps` with its default
separators `", "` and `": "`. -/
def choiceJson (ch : ChatCompletionChunkChoice) : String :=
  "\x7b\"index\": " ++ toString ch.index ++
  ", \"delta\": " ++ deltaJson ch.delta ++
  ", \"finish_reason\": " ++ jsonOptStr ch.finish_reason ++ "\x7d"

/-- JSON for a whole chunk dict. -/
def chunkJson (c : ChatCompletionChunk) : String :=
  "\x7b\"id\": " ++ jsonStrLit c.id ++
  ", \"object\": " ++ jsonStrLit c.object ++
  ", \"created\": " ++ toString c.created ++
  ", \"model\": " ++ jsonStrLit c.model ++
  ", \"choices\": [" ++ String.intercalate ", " (c.choices.map choiceJson) ++ "]\x7d"

/- ### Worker handlers, from `worker/main.py` -/

/-- The SSE frame a chunk becomes in `stream_chat_response`:
`f"data: \x7bjson.dumps(chunk)\x7d\n\n"`. -/
def chunkFrame (c : ChatCompletionChunk) : String :=
  "data: " ++ chunkJson c ++ "\n\n"

/-- The terminal sentinel frame yielded after the stream is exhausted. -/
def doneFrame : String := "data: [DONE]\n\n"

/-- The frames the generator body of `stream_chat_response` yields over a
runtime chunk run: one frame per chunk in order, then the sentinel after
the `for` loop ends.  If the runtime raises (`Except.error`), the
exception propagates out of the generator: nothing further is yielded,
in particular no sentinel. -/
def sseEncode : List (Except String ChatCompletionChunk) → List String
  | [] => [doneFrame]
  | Except.ok c :: rest => chunkFrame c :: sseEncode rest
  | Except.error _ :: _ => []

/-- `create_chat_response` of `worker/main.py`: resolves the three
`None`-checked defaults, calls the runtime with `stream=False`
(`top_p`, `max_tokens`, `stop` are passed through untouched) and
returns its response verbatim. -/
def create_chat_response (rt : LlamaRuntime) (messages : List LlamaMessage)
    (request : ChatCompletionRequest) : RuntimeResponse :=
  let temperature : Rat := match request.temperature with | none => 0.7 | some t => t
  let top_k : Int := match request.top_k with | none => 40 | some k => k
  let repeat_penalty : Rat := match request.repeat_penalty with | none => 1.1 | some r => r
  rt.complete messages
    { temperature := temperature, top_p := request.top_p, top_k := top_k,
      max_tokens := request.max_tokens, stop := request.stop,
      repeat_penalty := repeat_penalty }

/-- `stream_chat_response` of `worker/main.py`: resolves the same three
defaults, calls the runtime with `stream=True` and yields the SSE
frames of the resulting chunk run. -/
def stream_chat_response (rt : LlamaRuntime) (messages : List LlamaMessage)
    (request : ChatCompletionRequest) : List String :=
  let temperature : Rat := match request.temperature with | none => 0.7 | some t => t
  let top_k : Int := match request.top_k with | none => 40 | some k => k
  let repeat_penalty : Rat := match request.repeat_penalty with | none => 1.1 | some r => r
  sseEncode (rt.completeStream messages
    { temperature := temperature, top_p := request.top_p, top_k := top_k,
      max_tokens := request.max_tokens, stop := request.stop,
      repeat_penalty := repeat_penalty })

/-- `mock_response` of `worker/main.py`.  Python evaluates
`request.messages[-1]`, which raises `IndexError` on an empty list:
that outcome is `none`. -/
def mock_response (now : Int) (request : ChatCompletionRequest) :
    Option ChatCompletionResponse :=
  match request.messages.getLast? with
  | none => none
  | some last => some
    { id := "chatcmpl-mock",
      object := "chat.completion",
      created := now,
      model := request.model,
      choices := [
        { index := 0,
          message :=
            { role := "assistant",
              content := "⚠️ Mock Response (Model not loaded). You said: " ++ last.content },
          finish_reason := some "stop" }],
      usage := { prompt_tokens := 0, completion_tokens := 0, total_tokens := 0 } }

/-- What a request handled by `chat_completions` produces: the typed mock
JSON body, the runtime response dict forwarded as JSON, an SSE stream of
frames, or an unhandled exception (HTTP 500). -/
inductive HandlerOutcome where
  | mockJson (response : ChatCompletionResponse)
  | blockingJson (response : RuntimeResponse)
  | sse (frames : List String)
  | serverError (message : String)
deriving DecidableEq

/-- `chat_completions` of `worker/main.py`: with no model loaded every
request goes to `mock_response` (even `stream=true` ones); otherwise the
pydantic messages become llama dicts and `request.stream` (Python
truthiness: `None` is falsy) picks the streaming or blocking path. -/
def chat_completions (llm : Option LlamaRuntime) (now : Int)
    (request : ChatCompletionRequest) : HandlerOutcome :=
  match llm with
  | none =>
    match mock_response now request with
    | some r => HandlerOutcome.mockJson r
    | none => HandlerOutcome.serverError "IndexError"
  | some rt =>
    let messages := request.messages.map (fun m => LlamaMessage.mk m.role m.content)
    if request.stream.getD false then
      HandlerOutcome.sse (stream_chat_response rt messages request)
    else
      HandlerOutcome.blockingJson (create_chat_response rt messages request)

/-- `health` of `worker/main.py`: `status = "ok" if llm else "mock_mode"`
(a loaded `Llama` object is truthy, `None` is falsy). -/
def health (llm : Option LlamaRuntime) : HealthResponse :=
  { status := if llm.isSome then "ok" else "mock_mode",
    model_loaded := llm.isSome }

/- ### Request body validation (models pydantic parsing of the schema) -/

/-- Untyped JSON values, the request body before validation. -/
inductive Json where
  | null
  | bool (b : Bool)
  | num (q : Rat)
  | str (s : String)
  | arr (elements : List Json)
  | obj (fields : List (String × Json))

/-- Field lookup in a JSON object. -/
def lookupField : List (String × Json) → String → Option Json
  | [], _ => none
  | (k, v) :: rest, key => if k = key then some v else lookupField rest key

/-- Pydantic validation of one `ChatMessage`: `role` and `content` are
required strings. -/
def parseChatMessage : Json → Except String ChatMessage
  | Json.obj fields =>
    match lookupField fields "role", lookupField fields "content" with
    | some (Json.str r), some (Json.str c) => Except.ok { role := r, content := c }
    | _, _ => Except.error "message: role and content must be strings"
  | _ => Except.error "message must be an object"

/-- Validates each element of the `messages` array.  `List[ChatMessage]`
places no length constraint: the empty array validates to `[]`. -/
def parseMessages : List Json → Except String (List ChatMessage)
  | [] => Except.ok []
  | j :: rest => do
    let m ← parseChatMessage j
    let ms ← parseMessages rest
    Except.ok (m :: ms)

/-- An `Optional[float]` field: absent takes the pydantic default,
explicit `null` becomes `None`, a number is accepted, anything else is a
type error.  (String-to-number coercion is not modelled; no claim
depends on it.) -/
def parseOptRat (fields : List (String × Json)) (key : String) (dflt : Option Rat) :
    Except String (Option Rat) :=
  match lookupField fields key with
  | none => Except.ok dflt
  | some Json.null => Except.ok none
  | some (Json.num q) => Except.ok (some q)
  | some _ => Except.error (key ++ " must be a number")

/-- An `Optional[int]` field, analogous; non-integral numbers are
rejected. -/
def parseOptInt (fields : List (String × Json)) (key : String) (dflt : Option Int) :
    Except String (Option Int) :=
  match lookupField fields key with
  | none => Except.ok dflt
  | some Json.null => Except.ok none
  | some (Json.num q) =>
    if q.den = 1 then Except.ok (some q.num) else Except.error (key ++ " must be an integer")
  | some _ => Except.error (key ++ " must be an integer")

/-- An `Optional[bool]` field. -/
def parseOptBool (fields : List (String × Json)) (key : String) (dflt : Option Bool) :
    Except String (Option Bool) :=
  match lookupField fields key with
  | none => Except.ok dflt
  | some Json.null => Except.ok none
  | some (Json.bool b) => Except.ok (some b)
  | some _ => Except.error (key ++ " must be a boolean")

/-- An `Optional[str]` field. -/
def parseOptStr (fields : List (String × Json)) (key : String) (dflt : Option String) :
    Except String (Option String) :=
  match lookupField fields key with
  | none => Except.ok dflt
  | some Json.null => Except.ok none
  | some (Json.str s) => Except.ok (some s)
  | some _ => Except.error (key ++ " must be a string")

/-- Elements of a `List[str]` value for `stop`. -/
def parseStrList : List Json → Except String (List String)
  | [] => Except.ok []
  | Json.str s :: rest => do
    let l ← parseStrList rest
    Except.ok (s :: l)
  | _ => Except.error "stop list elements must be strings"

/-- The `Optional[Union[str, List[str]]]` field `stop`. -/
def parseStop (fields : List (String × Json)) : Except String (Option StopSpec) :=
  match lookupField fields "stop" with
  | none => Except.ok none
  | some Json.null => Except.ok none
  | some (Json.str s) => Except.ok (some (StopSpec.str s))
  | some (Json.arr l) => do
    let strs ← parseStrList l
    Except.ok (some (StopSpec.list strs))
  | some _ => Except.error "stop must be a string or list of strings"

/-- Entries of the `Dict[str, float]` value for `logit_bias`. -/
def parseRatFields : List (String × Json) → Except String (List (String × Rat))
  | [] => Except.ok []
  | (k, Json.num q) :: rest => do
    let l ← parseRatFields rest
    Except.ok ((k, q) :: l)
  | _ => Except.error "logit_bias values must be numbers"

/-- The `Optional[Dict[str, float]]` field `logit_bias`. -/
def parseLogitBias (fields : List (String × Json)) :
    Except String (Option (List (String × Rat))) :=
  match lookupField fields "logit_bias" with
  | none => Except.ok none
  | some Json.null => Except.ok none
  | some (Json.obj entries) => do
    let l ← parseRatFields entries
    Except.ok (some l)
  | some _ => Except.error "logit_bias must be an object"

/-- Pydantic validation of `ChatCompletionRequest` (`rest/schemas.py`):
`model` must be a string and `messages` an array of valid messages —
with no minimum length, since the annotation is a bare
`List[ChatMessage]`; every optional field takes its declared default
when absent; unknown fields are ignored.  An `Except.error` surfaces as
HTTP 400 (FastAPI validation failure). -/
def parseChatCompletionRequest (j : Json) : Except String ChatCompletionRequest :=
  match j with
  | Json.obj fields =>
    match lookupField fields "model", lookupField fields "messages" with
    | some (Json.str model), some (Json.arr msgs) => do
      let messages ← parseMessages msgs
      let temperature ← parseOptRat fields "temperature" (some 0.7)
      let top_p ← parseOptRat fields "top_p" (some 1.0)
      let n ← parseOptInt fields "n" (some 1)
      let max_tokens ← parseOptInt fields "max_tokens" none
      let stream ← parseOptBool fields "stream" (some false)
      let stop ← parseStop fields
      let presence_penalty ← parseOptRat fields "presence_penalty" (some 0)
      let frequency_penalty ← parseOptRat fields "frequency_penalty" (some 0)
      let logit_bias ← parseLogitBias fields
      let user ← parseOptStr fields "user" none
      let top_k ← parseOptInt fields "top_k" (some 40)
      let repeat_penalty ← parseOptRat fields "repeat_penalty" (some 1.1)
      Except.ok
        { model := model, messages := messages, temperature := temperature,
          top_p := top_p, n := n, max_tokens := max_tokens, stream := stream,
          stop := stop, presence_penalty := presence_penalty,
          frequency_penalty := frequency_penalty, logit_bias := logit_bias,
          user := user, top_k := top_k, repeat_penalty := repeat_penalty }
    | _, _ => Except.error "model must be a string and messages an array"
  | _ => Except.error "request body must be an object"

/- ### Claim-side predicates (formalizing the spec wording) -/

/-- The usage invariant of the spec: total is the sum of the parts. -/
def usageInv (u : ChatCompletionUsage) : Prop :=
  u.total_tokens = u.prompt_tokens + u.completion_tokens

/-- The usage field carried by a handler outcome, when it has one. -/
def outcomeUsage : HandlerOutcome → Option ChatCompletionUsage
  | HandlerOutcome.mockJson r => some r.usage
  | HandlerOutcome.blockingJson r => some r.usage
  | HandlerOutcome.sse _ => none
  | HandlerOutcome.serverError _ => none

/-- The runtime (when loaded) reports coherent usage on blocking calls. -/
def runtimeUsageOk : Option LlamaRuntime → Prop
  | none => True
  | some rt => ∀ msgs p, usageInv (rt.complete msgs p).usage

/-- A delta with empty content (absent or the empty string). -/
def deltaContentEmpty (d : ChatCompletionChunkDelta) : Bool :=
  match d.content with
  | none => true
  | some s => s = ""

/-- A valid opening chunk per the spec: one choice at index 0 whose delta
carries role "assistant" and empty content. -/
def firstChunkOk (c : ChatCompletionChunk) : Bool :=
  match c.choices with
  | [ch] => ch.index = 0 && ch.delta.role = some "assistant" && deltaContentEmpty ch.delta
  | _ => false

/-- A valid continuation chunk: one choice at index 0, role omitted,
content present, no finish reason yet. -/
def middleChunkOk (c : ChatCompletionChunk) : Bool :=
  match c.choices with
  | [ch] =>
    ch.index = 0 && ch.delta.role = none && ch.delta.content.isSome &&
      ch.finish_reason = none
  | _ => false

/-- A valid final chunk: one choice at index 0 carrying a non-null
finish_reason and an empty delta. -/
def finalChunkOk (c : ChatCompletionChunk) : Bool :=
  match c.choices with
  | [ch] =>
    ch.index = 0 && ch.finish_reason.isSome && ch.delta.role = none &&
      deltaContentEmpty ch.delta
  | _ => false

/-- The chunks after the opening one: zero or more continuation chunks
ending in one final chunk. -/
def tailChunksOk : List ChatCompletionChunk → Bool
  | [] => false
  | [c] => finalChunkOk c
  | c :: rest => middleChunkOk c && tailChunksOk rest

/-- The streamed-delta protocol of the claim: an opening chunk, then
continuation chunks, then a final chunk. -/
def chunkProtocol : List ChatCompletionChunk → Bool
  | [] => false
  | c :: rest => firstChunkOk c && tailChunksOk rest

/- ### Concrete runtimes and requests for witnesses and counterexamples -/

/-- A placeholder blocking response for runtimes only used in streaming. -/
def noResponse : RuntimeResponse :=
  { id := "", created := 0, model := "", content := "", finish_reason := none,
    usage := { prompt_tokens := 0, completion_tokens := 0, total_tokens := 0 } }

/-- A one-message streaming request used by several concrete runs. -/
def streamReq : ChatCompletionRequest :=
  { model := "m", messages := [ChatMessage.mk "user" "hi"], stream := some true }

/-- The empty-messages request body `\x7b"model": "x", "messages": []\x7d`. -/
def emptyMessagesBody : Json :=
  Json.obj [("model", Json.str "x"), ("messages", Json.arr [])]

/-- The request value that body validates to. -/
def emptyMessagesReq : ChatCompletionRequest :=
  { model := "x", messages := [] }

/-- A content-bearing chunk as llama-cpp would yield mid-stream. -/
def c3chunk : ChatCompletionChunk :=
  { id := "c3", created := 0, model := "m",
    choices := [{ index := 0,
                  delta := { role := none, content := some "tok" },
                  finish_reason := none }] }

/-- A runtime whose streaming run is the single chunk `c3chunk`. -/
def c3rt : LlamaRuntime :=
  { complete := fun _ _ => noResponse,
    completeStream := fun _ _ => [Except.ok c3chunk] }

/-- A chunk after which the runtime raises. -/
def c4chunk : ChatCompletionChunk :=
  { id := "c4", created := 0, model := "m",
    choices := [{ index := 0,
                  delta := { role := none, content := some "par" },
                  finish_reason := none }] }

/-- A runtime that yields one chunk and then raises mid-generation. -/
def c4rt : LlamaRuntime :=
  { complete := fun _ _ => noResponse,
    completeStream := fun _ _ => [Except.ok c4chunk, Except.error "boom"] }

/-- A request with a system preamble, a particular temperature, and the
last user message "bye". -/
def c10reqA : ChatCompletionRequest :=
  { model := "m",
    messages := [ChatMessage.mk "system" "sys", ChatMessage.mk "user" "bye"],
    temperature := some 0.1, top_k := some 5 }

/-- A request agreeing with `c10reqA` only on the model and the last
message content. -/
def c10reqB : ChatCompletionRequest :=
  { model := "m",
    messages := [ChatMessage.mk "assistant" "bye"],
    temperature := none, max_tokens := some 9 }

/-- A probe runtime whose blocking response records whether `top_p`
arrived as Python `None`. -/
def c5probe : LlamaRuntime :=
  { complete := fun _ p =>
      { noResponse with
        id := match p.top_p with | none => "top_p-was-null" | some _ => "top_p-was-set" },
    completeStream := fun _ _ => [] }

/-- A blocking request carrying an explicit `"top_p": null`. -/
def c5req : ChatCompletionRequest :=
  { model := "m", messages := [ChatMessage.mk "user" "hi"], top_p := none }

/-- A runtime whose blocking response reports incoherent usage. -/
def c6rt : LlamaRuntime :=
  { complete := fun _ _ =>
      { id := "r", created := 0, model := "m", content := "out",
        finish_reason := some "stop",
        usage := { prompt_tokens := 1, completion_tokens := 1, total_tokens := 5 } },
    completeStream := fun _ _ => [] }

/-- A blocking request for the usage counterexample. -/
def c6req : ChatCompletionRequest :=
  { model := "m", messages := [ChatMessage.mk "user" "hi"], stream := some false }

/-- A first chunk violating the delta protocol: no role announcement. -/
def c7chunk : ChatCompletionChunk :=
  { id := "c7", created := 0, model := "m",
    choices := [{ index := 0,
                  delta := { role := none, content := some "hello" },
                  finish_reason := none }] }

/-- A runtime streaming exactly that protocol-violating chunk. -/
def c7rt : LlamaRuntime :=
  { complete := fun _ _ => noResponse,
    completeStream := fun _ _ => [Except.ok c7chunk] }

/-- A protocol-satisfying opening chunk. -/
def c7first : ChatCompletionChunk :=
  { id := "w", created := 0, model := "m",
    choices := [{ index := 0,
                  delta := { role := some "assistant", content := some "" },
                  finish_reason := none }] }

/-- A protocol-satisfying final chunk. -/
def c7final : ChatCompletionChunk :=
  { id := "w", created := 0, model := "m",
    choices := [{ index := 0,
                  delta := { role := none, content := none },
                  finish_reason := some "stop" }] }

/-- A runtime streaming a protocol-satisfying run. -/
def c7wRt : LlamaRuntime :=
  { complete := fun _ _ => noResponse,
    completeStream := fun _ _ => [Except.ok c7first, Except.ok c7final] }

/- ### Theorems -/

/-- Chunk frames open with `data: \x7b`, so none of them is the sentinel
frame `data: [DONE]`. -/
theorem chunkFrame_ne_doneFrame (c : ChatCompletionChunk) : chunkFrame c ≠ doneFrame := by
  intro h
  have h2 := congrArg String.data h
  simp [chunkFrame, chunkJson, doneFrame, String.data_append] at h2

/-- The sentinel frame never occurs among the per-chunk frames. -/
theorem doneFrame_not_mem_map (l : List ChatCompletionChunk) :
    doneFrame ∉ l.map chunkFrame := by
  intro h
  rcases List.mem_map.mp h with ⟨c, _, hc⟩
  exact chunkFrame_ne_doneFrame c hc

/-- Encoding an error-free run frames every chunk in order and appends
the sentinel. -/
theorem sseEncode_ok (chunks : List ChatCompletionChunk) :
    sseEncode (chunks.map Except.ok) = chunks.map chunkFrame ++ [doneFrame] := by
  induction chunks with
  | nil => rfl
  | cons c rest ih => simp [sseEncode, ih]

/-- Encoding a run that raises after a prefix of good chunks frames only
that prefix: nothing after the raise, in particular no sentinel. -/
theorem sseEncode_error (oks : List ChatCompletionChunk) (e : String)
    (rest : List (Except String ChatCompletionChunk)) :
    sseEncode (oks.map Except.ok ++ Except.error e :: rest) = oks.map chunkFrame := by
  induction oks with
  | nil => rfl
  | cons c more ih => simp [sseEncode, ih]

/-- C1: with no model loaded, every request whose message list is
non-empty gets the mock response: one choice at index 0, content the mock
banner followed by the last message content, finish_reason "stop", id
"chatcmpl-mock" and an all-zero usage block. -/
theorem c1_mock_response_shape (now : Int) (request : ChatCompletionRequest)
    (last : ChatMessage) (h : request.messages.getLast? = some last) :
    chat_completions none now request = HandlerOutcome.mockJson
      { id := "chatcmpl-mock",
        object := "chat.completion",
        created := now,
        model := request.model,
        choices := [
          { index := 0,
            message :=
              { role := "assistant",
                content := "⚠️ Mock Response (Model not loaded). You said: " ++ last.content },
            finish_reason := some "stop" }],
        usage := { prompt_tokens := 0, completion_tokens := 0, total_tokens := 0 } } := by
  simp [chat_completions, mock_response, h]

theorem c1_mock_response_shape_witness :
    chat_completions none 7
      { model := "x", messages := [ChatMessage.mk "user" "hi"] } = HandlerOutcome.mockJson
      { id := "chatcmpl-mock",
        object := "chat.completion",
        created := 7,
        model := "x",
        choices := [
          { index := 0,
            message :=
              { role := "assistant",
                content := "⚠️ Mock Response (Model not loaded). You said: hi" },
            finish_reason := some "stop" }],
        usage := { prompt_tokens := 0, completion_tokens := 0, total_tokens := 0 } } := by
  have h := c1_mock_response_shape 7
    { model := "x", messages := [ChatMessage.mk "user" "hi"] }
    (ChatMessage.mk "user" "hi") (by rfl)
  simpa using h

/-- C2: the claim says an empty `messages` list fails validation (HTTP
400) before reaching the adapter.  The schema annotation is a bare
`List[ChatMessage]` with no minimum length, so the body
`\x7b"model": "x", "messages": []\x7d` validates, the handler is entered,
and in mock mode `mock_response` evaluates `request.messages[-1]`, which
raises `IndexError` (HTTP 500): the code contradicts the non-emptiness
invariant its own mock path relies on. -/
theorem c2_empty_messages_accepted :
    parseChatCompletionRequest emptyMessagesBody = Except.ok emptyMessagesReq ∧
    chat_completions none 0 emptyMessagesReq = HandlerOutcome.serverError "IndexError" :=
  ⟨rfl, rfl⟩

/-- C3: for a streaming request whose runtime run is a finite list of
chunks with no raise, the SSE output is one `data:` frame per chunk in
order, then exactly one terminal `data: [DONE]` frame, with no frame
after it. -/
theorem c3_stream_framing (rt : LlamaRuntime) (now : Int)
    (req : ChatCompletionRequest) (chunks : List ChatCompletionChunk)
    (hs : req.stream = some true)
    (hrt : ∀ msgs p, rt.completeStream msgs p = chunks.map Except.ok) :
    chat_completions (some rt) now req =
      HandlerOutcome.sse (chunks.map chunkFrame ++ [doneFrame]) ∧
    (chunks.map chunkFrame ++ [doneFrame]).count doneFrame = 1 ∧
    (chunks.map chunkFrame ++ [doneFrame]).getLast? = some doneFrame := by
  refine ⟨?_, ?_, ?_⟩
  · simp [chat_completions, hs, stream_chat_response, hrt, sseEncode_ok]
  · rw [List.count_append]
    rw [List.count_eq_zero.mpr (doneFrame_not_mem_map chunks)]
    simp
  · simp

theorem c3_stream_framing_witness :
    chat_completions (some c3rt) 0 streamReq =
      HandlerOutcome.sse ([c3chunk].map chunkFrame ++ [doneFrame]) ∧
    ([c3chunk].map chunkFrame ++ [doneFrame]).count doneFrame = 1 ∧
    ([c3chunk].map chunkFrame ++ [doneFrame]).getLast? = some doneFrame :=
  c3_stream_framing c3rt 0 streamReq [c3chunk] rfl (fun _ _ => rfl)

/-- C4 counterexample: the claim says that when the runtime raises
mid-generation the SSE output still ends with the `[DONE]` sentinel.
`stream_chat_response` has no exception handler, so with a runtime that
raises after one chunk the output is that one frame and the sentinel
never appears. -/
theorem c4_no_sentinel_on_error :
    chat_completions (some c4rt) 0 streamReq = HandlerOutcome.sse [chunkFrame c4chunk] ∧
    doneFrame ∉ [chunkFrame c4chunk] := by
  refine ⟨rfl, ?_⟩
  simpa using doneFrame_not_mem_map [c4chunk]

/-- C4 amended: when the runtime raises (at the start of generation or
partway through), the exception propagates out of the generator: the SSE
output is the frames of the chunks yielded before the raise and nothing
more — in particular the `[DONE]` sentinel is never emitted. -/
theorem c4_amended_truncated_stream (rt : LlamaRuntime) (now : Int)
    (req : ChatCompletionRequest) (oks : List ChatCompletionChunk) (e : String)
    (rest : List (Except String ChatCompletionChunk))
    (hs : req.stream = some true)
    (hrt : ∀ msgs p, rt.completeStream msgs p = oks.map Except.ok ++ Except.error e :: rest) :
    chat_completions (some rt) now req = HandlerOutcome.sse (oks.map chunkFrame) ∧
    doneFrame ∉ oks.map chunkFrame := by
  refine ⟨?_, doneFrame_not_mem_map oks⟩
  simp [chat_completions, hs, stream_chat_response, hrt, sseEncode_error]

theorem c4_amended_truncated_stream_witness :
    chat_completions (some c4rt) 0 streamReq =
      HandlerOutcome.sse ([c4chunk].map chunkFrame) ∧
    doneFrame ∉ [c4chunk].map chunkFrame :=
  c4_amended_truncated_stream c4rt 0 streamReq [c4chunk] "boom" [] rfl (fun _ _ => rfl)

/-- C5 counterexample: the claim says every null sampling parameter is
defaulted before the runtime is called, `top_p` to 1.0.  The code
`None`-checks only temperature, top_k and repeat_penalty;
`request.top_p` is passed through raw, so a request with an explicit
`"top_p": null` hands the runtime a null `top_p` (observed here by a
probe runtime that records whether `top_p` arrived null). -/
theorem c5_top_p_null_reaches_runtime :
    c5req.top_p = none ∧
    chat_completions (some c5probe) 0 c5req =
      HandlerOutcome.blockingJson { noResponse with id := "top_p-was-null" } :=
  ⟨rfl, rfl⟩

/-- C5 amended: on both the blocking and the streaming path the worker
calls the runtime with temperature, top_k and repeat_penalty defaulted
(0.7, 40, 1.1) when null, while top_p, max_tokens and stop are passed
through exactly as they are in the request — a null `top_p` is only 1.0
when the schema default filled it in (field absent), not when the
request carried an explicit null. -/
theorem c5_amended_default_resolution (rt : LlamaRuntime)
    (messages : List LlamaMessage) (req : ChatCompletionRequest) :
    create_chat_response rt messages req = rt.complete messages
      { temperature := req.temperature.getD 0.7, top_p := req.top_p,
        top_k := req.top_k.getD 40, max_tokens := req.max_tokens,
        stop := req.stop, repeat_penalty := req.repeat_penalty.getD 1.1 } ∧
    stream_chat_response rt messages req = sseEncode (rt.completeStream messages
      { temperature := req.temperature.getD 0.7, top_p := req.top_p,
        top_k := req.top_k.getD 40, max_tokens := req.max_tokens,
        stop := req.stop, repeat_penalty := req.repeat_penalty.getD 1.1 }) := by
  constructor <;>
    cases h1 : req.temperature <;> cases h2 : req.top_k <;>
      cases h3 : req.repeat_penalty <;>
        simp [create_chat_response, stream_chat_response, h1, h2, h3]

/-- C6 counterexample: the claim asserts the usage invariant for every
non-streaming response, but on the loaded path the worker forwards the
runtime's response verbatim without checking it: a runtime reporting
`total_tokens = 5` with `1 + 1` parts reaches the client unchanged. -/
theorem c6_usage_not_enforced :
    chat_completions (some c6rt) 0 c6req = HandlerOutcome.blockingJson
      { id := "r", created := 0, model := "m", content := "out",
        finish_reason := some "stop",
        usage := { prompt_tokens := 1, completion_tokens := 1, total_tokens := 5 } } ∧
    ¬ usageInv { prompt_tokens := 1, completion_tokens := 1, total_tokens := 5 } :=
  ⟨rfl, by unfold usageInv; decide⟩

/-- C6 amended: the mock path constructs an all-zero usage block, which
satisfies the invariant, and the loaded blocking path returns the
runtime's response unchanged — so every non-streaming response
satisfies `total = prompt + completion` exactly when the runtime's
blocking responses do (unconditionally in mock mode). -/
theorem c6_amended_usage (llm : Option LlamaRuntime) (now : Int)
    (req : ChatCompletionRequest) (u : ChatCompletionUsage)
    (hrt : runtimeUsageOk llm)
    (hu : outcomeUsage (chat_completions llm now req) = some u) :
    usageInv u := by
  cases llm with
  | none =>
    cases hlast : req.messages.getLast? with
    | none => simp [chat_completions, mock_response, hlast, outcomeUsage] at hu
    | some last =>
      simp [chat_completions, mock_response, hlast, outcomeUsage] at hu
      rw [← hu]
      rfl
  | some rt =>
    by_cases hs : req.stream.getD false
    · simp [chat_completions, hs, outcomeUsage] at hu
    · simp [chat_completions, hs, outcomeUsage, create_chat_response] at hu
      rw [← hu]
      exact hrt _ _

theorem c6_amended_usage_witness :
    runtimeUsageOk none ∧
    outcomeUsage (chat_completions none 0 c6req) =
      some { prompt_tokens := 0, completion_tokens := 0, total_tokens := 0 } ∧
    usageInv { prompt_tokens := 0, completion_tokens := 0, total_tokens := 0 } :=
  ⟨trivial, rfl,
    c6_amended_usage none 0 c6req
      { prompt_tokens := 0, completion_tokens := 0, total_tokens := 0 } trivial rfl⟩

/-- C7 counterexample: the claim asserts the first emitted chunk always
carries `delta.role="assistant"`, but the worker forwards the runtime's
chunks verbatim: a runtime whose first (and only) chunk has no role
produces an SSE stream whose pre-[DONE] chunk sequence violates the
protocol. -/
theorem c7_protocol_not_enforced :
    chat_completions (some c7rt) 0 streamReq =
      HandlerOutcome.sse [chunkFrame c7chunk, doneFrame] ∧
    chunkProtocol [c7chunk] = false :=
  ⟨rfl, rfl⟩

/-- C7 amended: the streaming path forwards the runtime's chunks
verbatim and in order, so the emitted pre-[DONE] chunk sequence obeys
the first/continuation/final delta protocol exactly when the runtime's
chunk run does; the worker enforces nothing itself.  Under that
assumption the output opens with a protocol-valid role announcement and
the remaining chunks are valid continuations ending in a finish_reason
chunk. -/
theorem c7_amended_passthrough (rt : LlamaRuntime) (now : Int)
    (req : ChatCompletionRequest) (chunks : List ChatCompletionChunk)
    (hs : req.stream = some true)
    (hrt : ∀ msgs p, rt.completeStream msgs p = chunks.map Except.ok)
    (hp : chunkProtocol chunks = true) :
    chat_completions (some rt) now req =
      HandlerOutcome.sse (chunks.map chunkFrame ++ [doneFrame]) ∧
    ∃ first rest, chunks = first :: rest ∧ firstChunkOk first = true ∧
      tailChunksOk rest = true := by
  constructor
  · simp [chat_completions, hs, stream_chat_response, hrt, sseEncode_ok]
  · cases chunks with
    | nil => simp [chunkProtocol] at hp
    | cons c rest =>
      rw [chunkProtocol, Bool.and_eq_true] at hp
      exact ⟨c, rest, rfl, hp.1, hp.2⟩

theorem c7_amended_passthrough_witness :
    chunkProtocol [c7first, c7final] = true ∧
    (chat_completions (some c7wRt) 0 streamReq =
      HandlerOutcome.sse ([c7first, c7final].map chunkFrame ++ [doneFrame]) ∧
    ∃ first rest, [c7first, c7final] = first :: rest ∧ firstChunkOk first = true ∧
      tailChunksOk rest = true) :=
  ⟨rfl, c7_amended_passthrough c7wRt 0 streamReq [c7first, c7final] rfl
    (fun _ _ => rfl) rfl⟩

/-- C8: the health endpoint is a pure read of the process-wide handle:
with a model loaded it reports `\x7bstatus: "ok", model_loaded: true\x7d`,
and with none it reports `\x7bstatus: "mock_mode", model_loaded: false\x7d`. -/
theorem c8_health_reflects_adapter (llm : Option LlamaRuntime) :
    (health llm = { status := "ok", model_loaded := true } ∧ llm.isSome = true) ∨
    (health llm = { status := "mock_mode", model_loaded := false } ∧ llm = none) := by
  cases llm with
  | none => exact Or.inr ⟨rfl, rfl⟩
  | some rt => exact Or.inl ⟨rfl, rfl⟩

/-- C10: the mock response depends only on the request's model and the
content of its last message: two requests agreeing on those (whatever
their earlier messages, roles or sampling parameters) produce responses
identical in every field except `created`, which records the call
time. -/
theorem c10_mock_deterministic (t1 t2 : Int) (r1 r2 : ChatCompletionRequest)
    (l1 l2 : ChatMessage)
    (h1 : r1.messages.getLast? = some l1) (h2 : r2.messages.getLast? = some l2)
    (hm : r1.model = r2.model) (hc : l1.content = l2.content) :
    ∃ resp1 resp2,
      mock_response t1 r1 = some resp1 ∧ mock_response t2 r2 = some resp2 ∧
      resp1.created = t1 ∧ resp2.created = t2 ∧
      resp1.id = resp2.id ∧ resp1.object = resp2.object ∧
      resp1.model = resp2.model ∧ resp1.choices = resp2.choices ∧
      resp1.usage = resp2.usage := by
  refine
    ⟨{ id := "chatcmpl-mock", object := "chat.completion", created := t1,
       model := r1.model,
       choices := [{ index := 0,
                     message :=
                       { role := "assistant",
                         content := "⚠️ Mock Response (Model not loaded). You said: "
                           ++ l1.content },
                     finish_reason := some "stop" }],
       usage := { prompt_tokens := 0, completion_tokens := 0, total_tokens := 0 } },
     { id := "chatcmpl-mock", object := "chat.completion", created := t2,
       model := r2.model,
       choices := [{ index := 0,
                     message :=
                       { role := "assistant",
                         content := "⚠️ Mock Response (Model not loaded). You said: "
                           ++ l2.content },
                     finish_reason := some "stop" }],
       usage := { prompt_tokens := 0, completion_tokens := 0, total_tokens := 0 } },
     ?_, ?_, rfl, rfl, rfl, rfl, hm, ?_, rfl⟩
  · simp [mock_response, h1]
  · simp [mock_response, h2]
  · rw [hc]

theorem c10_mock_deterministic_witness :
    ∃ resp1 resp2,
      mock_response 1 c10reqA = some resp1 ∧ mock_response 2 c10reqB = some resp2 ∧
      resp1.created = 1 ∧ resp2.created = 2 ∧
      resp1.id = resp2.id ∧ resp1.object = resp2.object ∧
      resp1.model = resp2.model ∧ resp1.choices = resp2.choices ∧
      resp1.usage = resp2.usage :=
  c10_mock_deterministic 1 2 c10reqA c10reqB
    (ChatMessage.mk "user" "bye") (ChatMessage.mk "assistant" "bye") rfl rfl rfl rfl
